import Mathlib

/-!
Verification of the RPC dispatch core (`rpc_context.rs`) and the SQL
`Assignment` conversion (`assignment.rs`) of the repository, as a shallow
embedding in Lean.  External collaborators (datastore, IAM, value helper
methods whose sources live outside the provided tree) are modelled either as
oracle parameters in an `Env` record or, where the specification describes
them, as definitions marked `Modelled from the spec`.
-/

set_option maxHeartbeats 1000000

/-- Closed RPC method enumeration, from `rpc/method.rs` usage sites. -/
inductive Method where
  | ping | info | use_ | signup | signin | invalidate | authenticate
  | kill | live | set | unset | select | insert | insertRelation
  | create | upsert | update | merge | patch | delete | version
  | query | relate | run | graphql | unknown
deriving DecidableEq, Repr

/-- RPC error taxonomy, from `rpc_error.rs` usage in `rpc_context.rs`. -/
inductive RpcError where
  | MethodNotFound | MethodNotAllowed | InvalidParams | InvalidRequest
  | ParseError | InvalidAuth | BadLQConfig | BadGQLConfig
  | Thrown (msg : String) | InternalError
deriving DecidableEq, Repr

/-- Projection of `sql::Fields`: `Fields::all()` is `SELECT *`,
`Fields::default()` is the empty field list used by `LIVE SELECT DIFF`. -/
inductive Fields where
  | all | empty
deriving DecidableEq, Repr

/-- Projection of `sql::Output` (the `RETURN` clause). -/
inductive Output where
  | noneOut | nullOut | diff | after | before | fieldsOut
deriving DecidableEq, Repr

/-- Record identifier payload of a `Thing`; a `Range` id denotes several
records, every other id denotes a single record. -/
inductive RecordId where
  | num (n : Int)
  | str (s : String)
  | range
deriving DecidableEq, Repr

mutual
/-- The value language (`sql::Value`), restricted to the constructors the
RPC layer inspects: `None`/`Null` sentinels, booleans, numbers, strands,
arrays, objects, UUIDs, table references, things, parameters and pre-parsed
query trees. -/
inductive Value where
  | none | null
  | bool (b : Bool)
  | int (n : Int)
  | strand (s : String)
  | array (vs : List Value)
  | object (fs : List (String × Value))
  | uuid (u : Nat)
  | table (t : String)
  | thing (tb : String) (id : RecordId)
  | param (p : String)
  | query (q : QueryAst)

/-- Data clauses (`crate::sql::Data`) used by the synthesised statements. -/
inductive SqlData where
  | contentExpression (v : Value)
  | mergeExpression (v : Value)
  | patchExpression (v : Value)
  | singleExpression (v : Value)

/-- Query statement trees produced by the statement synthesiser: each
constructor mirrors the statement struct built in `rpc_context.rs`
(`SelectStatement`, `CreateStatement`, ... and the `Function`/`Model`
invocations built by `run`). -/
inductive QueryAst where
  | selectStmt (expr : Fields) (what : List Value)
  | createStmt (what : List Value) (data : Option SqlData) (output : Option Output)
  | upsertStmt (what : List Value) (data : Option SqlData) (output : Option Output)
      (cond : Option Value)
  | updateStmt (what : List Value) (data : Option SqlData) (output : Option Output)
      (cond : Option Value)
  | deleteStmt (what : List Value) (output : Option Output)
  | relateStmt (frm : Value) (kind : Value) (wth : Value) (data : Option SqlData)
      (output : Option Output)
  | insertStmt (relation : Bool) (into : Option Value) (data : SqlData)
      (output : Option Output)
  | killStmt (id : Value)
  | liveStmt (expr : Fields) (what : List Value)
  | fnCustom (name : String) (args : List Value)
  | fnNormal (name : String) (args : List Value)
  | mlModel (name : String) (version : String) (args : List Value)
end

/-- Modelled from the spec: `Value::is_none_or_null` — the two absence
sentinels. -/
def Value.is_none_or_null : Value → Bool
  | Value.none => true
  | Value.null => true
  | _ => false

/-- Modelled from the spec: `Value::is_true` — the boolean `true` value. -/
def Value.is_true : Value → Bool
  | Value.bool true => true
  | _ => false

/-- Modelled from the spec: a `Thing` whose id is not a range denotes a
single record (`Value::is_thing_single`). -/
def Value.is_thing_single : Value → Bool
  | Value.thing _ RecordId.range => false
  | Value.thing _ _ => true
  | _ => false

/-- Modelled from the spec: `Value::is_single` — whether the value denotes a
single record, used by `relate` for its `from`/`to` arguments. -/
def Value.is_single : Value → Bool
  | Value.thing _ RecordId.range => false
  | Value.thing _ _ => true
  | _ => false

/-- Modelled from the spec: `Value::is_table`. -/
def Value.is_table : Value → Bool
  | Value.table _ => true
  | _ => false

/-- Modelled from the spec: `Value::is_query`. -/
def Value.is_query : Value → Bool
  | Value.query _ => true
  | _ => false

/-- Modelled from the spec: `Value::is_strand`. -/
def Value.is_strand : Value → Bool
  | Value.strand _ => true
  | _ => false

/-- Modelled from the spec: the "could-be-table" coercion — a plain string
is promoted to a table reference, every other value passes through. -/
def Value.could_be_table : Value → Value
  | Value.strand s => Value.table s
  | v => v

/-- Modelled from the spec: `Value::first` — the first row of an array
result, `None` otherwise. -/
def Value.first : Value → Value
  | Value.array (v :: _) => v
  | _ => Value.none

/-- Operators admitted by `Assignment::try_from`, from `sql/operator.rs`
usage in `assignment.rs`. -/
inductive Operator where
  | equal | inc | dec | ext
deriving DecidableEq, Repr

/-- Errors of the `Assignment` conversions; the source renders the payload
through `Display`, which we keep as the underlying data instead of a
rendered string. -/
inductive RsError where
  | invalidOperator (op : String)
  | otherTryFrom (v : Value)

/-- The `Assignment` struct of `sql/assignment.rs`, parameterised over the
external `Idiom` type (whose definition is outside the provided tree). -/
structure Assignment (I : Type) where
  l : I
  o : Operator
  r : Value

/-- Shallow embedding of `TryFrom<(Value, Value, Value)> for Assignment`:
the idiom is computed from the middle component via the external
`Value::to_idiom` (passed in as `toIdiom`), the operator is decoded from the
middle component when it is a strand, and the right-hand side is the last
component. -/
def Assignment.tryFrom {I : Type} (toIdiom : Value → I) :
    Value × Value × Value → Except RsError (Assignment I) :=
  fun tuple =>
    let idiom := toIdiom tuple.2.1
    match tuple.2.1 with
    | Value.strand o =>
      match o with
      | "=" => Except.ok ⟨idiom, Operator.equal, tuple.2.2⟩
      | "+=" => Except.ok ⟨idiom, Operator.inc, tuple.2.2⟩
      | "-=" => Except.ok ⟨idiom, Operator.dec, tuple.2.2⟩
      | "+?=" => Except.ok ⟨idiom, Operator.ext, tuple.2.2⟩
      | _ => Except.error (RsError.invalidOperator o)
    | o => Except.error (RsError.otherTryFrom o)

/-- Per-connection session state (`dbs::Session`): selected namespace and
database, the realtime flag, and the authentication principal kept opaque as
an optional string.  `Default` (the value installed by `mem::take`) has every
field unset. -/
structure Session where
  ns : Option String := Option.none
  db : Option String := Option.none
  rt : Bool := false
  au : Option String := Option.none
deriving DecidableEq, Repr

/-- The user variable map (`BTreeMap<String, Value>`), modelled as an
association list whose insert replaces an existing key. -/
abbrev Vars := List (String × Value)

/-- Map insertion: replace the binding of `k` when present, append
otherwise. -/
def insertVar (m : Vars) (k : String) (v : Value) : Vars :=
  match m with
  | [] => [(k, v)]
  | (k', v') :: rest =>
    if k' = k then (k, v) :: rest else (k', v') :: insertVar rest k v

/-- Map removal of a key. -/
def removeVar (m : Vars) (k : String) : Vars :=
  match m with
  | [] => []
  | (k', v') :: rest => if k' = k then removeVar rest k else (k', v') :: removeVar rest k

/-- Map lookup. -/
def lookupVar (m : Vars) (k : String) : Option Value :=
  match m with
  | [] => Option.none
  | (k', v') :: rest => if k' = k then Option.some v' else lookupVar rest k

/-- Modelled from the spec: the `map!`/`mrg!` merge in which the entries of
`over` shadow same-named entries of `base` ("synthesised shadow user
vars"). -/
def overrideVars (base : Vars) (over : List (String × Value)) : Vars :=
  over.foldl (fun m kv => insertVar m kv.1 kv.2) base

/-- Mutable per-connection state owned by the RPC session: the `Session`
plus the user variable map. -/
structure RpcState where
  session : Session
  vars : Vars

/-- Query-type tag on executor responses (`dbs::QueryType`). -/
inductive QueryType where
  | other | live | kill
deriving DecidableEq, Repr

/-- Executor response: a result value or error, plus the query-type tag. -/
structure Response where
  result : Except RpcError Value
  queryType : QueryType

/-- Response payload handed back to the transport (`rpc/response.rs`
`Data`): either a single value or the full list of statement responses. -/
inductive Data where
  | other (v : Value)
  | queryResults (rs : List Response)

/-- Abrupt outcomes of a handler: a structured RPC error, or a Rust panic
(out-of-bounds slice or `Vec::remove` on an empty vector). -/
inductive Fail where
  | rpc (e : RpcError)
  | panicked (msg : String)

/-- One observable call to an external collaborator: datastore
`process`/`execute`/`compute`, the IAM routines, and the live-query
callbacks.  Handlers report the calls they perform in order. -/
inductive Call where
  | process (q : QueryAst) (s : Session) (vars : Option Vars)
  | executeText (text : String) (s : Session) (vars : Option Vars)
  | compute (v : Value) (s : Session) (vars : Option Vars)
  | iamSignup (s : Session) (creds : List (String × Value))
  | iamSignin (s : Session) (creds : List (String × Value))
  | iamVerify (s : Session) (token : String)
  | iamClear (s : Session)
  | handleLive (u : Nat)
  | handleKill (u : Nat)

/-- Trace of external calls made during one method invocation. -/
abbrev Trace := List Call

/-- Outcome of one handler: the successor state, the trace of external
calls, and the produced data or failure. -/
abbrev HRes := RpcState × Trace × Except Fail Data

/-- External collaborators of the RPC core, as oracle functions: the
capability predicate, the `LQ_SUPPORT` flag, the datastore interface, the
IAM operations and the version datum. -/
structure Env where
  allows : Method → Bool
  lq : Bool
  processFn : QueryAst → Session → Option Vars → Except RpcError (List Response)
  executeFn : String → Session → Option Vars → Except RpcError (List Response)
  computeFn : Value → Session → Option Vars → Except RpcError Value
  signupFn : Session → List (String × Value) → Session × Except RpcError Value
  signinFn : Session → List (String × Value) → Session × Except RpcError Value
  verifyFn : Session → String → Session × Except RpcError Unit
  clearFn : Session → Except RpcError Session
  versionData : Data

/-- Lift a structured error into a handler outcome. -/
def failRpc (e : RpcError) : Except Fail Data := Except.error (Fail.rpc e)

/-- Convert an IAM or executor value result into transport data
(`.map(Into::into)`). -/
def toData : Except RpcError Value → Except Fail Data
  | Except.ok v => Except.ok (Data.other v)
  | Except.error e => Except.error (Fail.rpc e)

/-- Modelled from the spec: argument extractor shape `needs_one` — at most
one positional argument, missing trailing positions padded with `None`,
extra arguments rejected with `InvalidParams` (`rpc/args.rs` is not under
the provided tree). -/
def needs_one : List Value → Except RpcError Value
  | [] => Except.ok Value.none
  | [a] => Except.ok a
  | _ => Except.error RpcError.InvalidParams

/-- Modelled from the spec: argument extractor shape `needs_two`. -/
def needs_two : List Value → Except RpcError (Value × Value)
  | [] => Except.ok (Value.none, Value.none)
  | [a] => Except.ok (a, Value.none)
  | [a, b] => Except.ok (a, b)
  | _ => Except.error RpcError.InvalidParams

/-- Modelled from the spec: argument extractor shape `needs_one_or_two`. -/
def needs_one_or_two : List Value → Except RpcError (Value × Value)
  | [] => Except.ok (Value.none, Value.none)
  | [a] => Except.ok (a, Value.none)
  | [a, b] => Except.ok (a, b)
  | _ => Except.error RpcError.InvalidParams

/-- Modelled from the spec: argument extractor shape
`needs_one_two_or_three`. -/
def needs_one_two_or_three : List Value → Except RpcError (Value × Value × Value)
  | [] => Except.ok (Value.none, Value.none, Value.none)
  | [a] => Except.ok (a, Value.none, Value.none)
  | [a, b] => Except.ok (a, b, Value.none)
  | [a, b, c] => Except.ok (a, b, c)
  | _ => Except.error RpcError.InvalidParams

/-- Modelled from the spec: argument extractor shape `needs_three_or_four`. -/
def needs_three_or_four : List Value → Except RpcError (Value × Value × Value × Value)
  | [a, b, c] => Except.ok (a, b, c, Value.none)
  | [a, b, c, d] => Except.ok (a, b, c, d)
  | _ => Except.error RpcError.InvalidParams

/-- Modelled from the spec: the `StatementOptions` descriptor for
Upsert/Update — data clause, condition, output clause and helper variables
to merge (`statement_options.rs` is not under the provided tree; the output
default is taken as `After` per the method table). -/
structure StatementOptions where
  data : Option SqlData := Option.none
  cond : Option Value := Option.none
  output : Output := Output.after
  vars : Vars := []

/-- Modelled from the spec: `with_data_content` installs a Content data
clause referencing the `$data` parameter and records the payload among the
helper variables. -/
def StatementOptions.with_data_content (s : StatementOptions) (d : Value) :
    StatementOptions :=
  { s with data := Option.some (SqlData.contentExpression (Value.param "data")),
           vars := insertVar s.vars "data" d }

/-- Modelled from the spec: option-object parsing for Upsert/Update —
recognises a `return` output directive and a `cond` condition; anything else
is `InvalidParams`.  No theorem below depends on the exact key set. -/
def processOptionFields (s : StatementOptions) :
    List (String × Value) → Except RpcError StatementOptions
  | [] => Except.ok s
  | ("return", Value.strand r) :: rest =>
    match r with
    | "after" => processOptionFields { s with output := Output.after } rest
    | "before" => processOptionFields { s with output := Output.before } rest
    | "diff" => processOptionFields { s with output := Output.diff } rest
    | "none" => processOptionFields { s with output := Output.noneOut } rest
    | _ => Except.error RpcError.InvalidParams
  | ("cond", v) :: rest => processOptionFields { s with cond := Option.some v } rest
  | _ => Except.error RpcError.InvalidParams

/-- Modelled from the spec: `process_options` requires an object argument. -/
def StatementOptions.process_options (s : StatementOptions) :
    Value → Except RpcError StatementOptions
  | Value.object fs => processOptionFields s fs
  | _ => Except.error RpcError.InvalidParams

/-- Modelled from the spec: `data_expr` returns the accumulated data
clause. -/
def StatementOptions.data_expr (s : StatementOptions) : Option SqlData :=
  s.data

/-- Modelled from the spec: `merge_vars` merges the helper variables over
the user variable map (synthesised parameters shadow user variables). -/
def StatementOptions.merge_vars (s : StatementOptions) (user : Vars) : Vars :=
  overrideVars user s.vars

namespace RpcContext

/-- Shared tail of the CRUD handlers: run `kvs().process`, pop the first
response (`Vec::remove(0)` panics when empty), propagate its result with `?`,
and take the first row when a single-record result is expected. -/
def processOne (env : Env) (st : RpcState) (sql : QueryAst) (vars : Option Vars)
    (one : Bool) : HRes :=
  let tr : Trace := [Call.process sql st.session vars]
  match env.processFn sql st.session vars with
  | Except.error e => (st, tr, failRpc e)
  | Except.ok [] => (st, tr, Except.error (Fail.panicked "removal index out of bounds"))
  | Except.ok (r :: _) =>
    match r.result with
    | Except.error e => (st, tr, failRpc e)
    | Except.ok v => (st, tr, Except.ok (Data.other (if one then v.first else v)))

/-- Callback invocations performed by `handle_live_query_results` over a
response list: one `handle_live`/`handle_kill` per UUID-bearing `Live`/`Kill`
response. -/
def liveTrace : List Response → Trace
  | [] => []
  | r :: rest =>
    (match r.queryType, r.result with
     | QueryType.live, Except.ok (Value.uuid u) => [Call.handleLive u]
     | QueryType.kill, Except.ok (Value.uuid u) => [Call.handleKill u]
     | _, _ => []) ++ liveTrace rest

/-- Inner query path shared by `query`, `live` and `kill`: reject a
realtime session when `LQ_SUPPORT` is off, otherwise run the pre-parsed
tree through `process` or the source string through `execute`, then fire
the live-query callbacks. -/
def query_inner (env : Env) (st : RpcState) (query : Value) (vars : Option Vars) :
    Trace × Except Fail (List Response) :=
  if env.lq = false && st.session.rt then ([], Except.error (Fail.rpc RpcError.BadLQConfig))
  else
    match query with
    | Value.query sql =>
      (match env.processFn sql st.session vars with
       | Except.error e => ([Call.process sql st.session vars], Except.error (Fail.rpc e))
       | Except.ok res =>
         ([Call.process sql st.session vars] ++ liveTrace res, Except.ok res))
    | Value.strand sql =>
      (match env.executeFn sql st.session vars with
       | Except.error e => ([Call.executeText sql st.session vars], Except.error (Fail.rpc e))
       | Except.ok res =>
         ([Call.executeText sql st.session vars] ++ liveTrace res, Except.ok res))
    | _ => ([], Except.error (Fail.rpc RpcError.InternalError))

/-- The `use` handler (`yuse`): namespace argument, then database argument
(`None` leaves, `Null` unsets, strand assigns, anything else
`InvalidParams`), then the residual-database clearing step. -/
def yuse (_env : Env) (st : RpcState) (params : List Value) : HRes :=
  match needs_two params with
  | Except.error e => (st, [], failRpc e)
  | Except.ok (ns, db) =>
    let step1 : Except RpcError RpcState :=
      match ns with
      | Value.none => Except.ok st
      | Value.null => Except.ok { st with session := { st.session with ns := Option.none } }
      | Value.strand s =>
        Except.ok { st with session := { st.session with ns := Option.some s } }
      | _ => Except.error RpcError.InvalidParams
    match step1 with
    | Except.error e => (st, [], failRpc e)
    | Except.ok st1 =>
      let step2 : Except RpcError RpcState :=
        match db with
        | Value.none => Except.ok st1
        | Value.null => Except.ok { st1 with session := { st1.session with db := Option.none } }
        | Value.strand s =>
          Except.ok { st1 with session := { st1.session with db := Option.some s } }
        | _ => Except.error RpcError.InvalidParams
      match step2 with
      | Except.error e => (st1, [], failRpc e)
      | Except.ok st2 =>
        let st3 :=
          if st2.session.ns.isNone && st2.session.db.isSome then
            { st2 with session := { st2.session with db := Option.none } }
          else st2
        (st3, [], Except.ok (Data.other Value.none))

/-- The `signup` handler: exactly one object argument, session moved out
(`mem::take` leaves the default), handed to IAM, and written back on both
paths. -/
def signup (env : Env) (st : RpcState) (params : List Value) : HRes :=
  match needs_one params with
  | Except.ok (Value.object v) =>
    let tmp := st.session
    let st' := { st with session := {} }
    let call := env.signupFn tmp v
    ({ st' with session := call.1 }, [Call.iamSignup tmp v], toData call.2)
  | _ => (st, [], failRpc RpcError.InvalidParams)

/-- The `signin` handler: same session move-out/write-back pattern as
`signup`. -/
def signin (env : Env) (st : RpcState) (params : List Value) : HRes :=
  match needs_one params with
  | Except.ok (Value.object v) =>
    let tmp := st.session
    let st' := { st with session := {} }
    let call := env.signinFn tmp v
    ({ st' with session := call.1 }, [Call.iamSignin tmp v], toData call.2)
  | _ => (st, [], failRpc RpcError.InvalidParams)

/-- The `invalidate` handler: clears authentication state via IAM and
returns `None`. -/
def invalidate (env : Env) (st : RpcState) : HRes :=
  match env.clearFn st.session with
  | Except.error e => (st, [Call.iamClear st.session], failRpc e)
  | Except.ok s' =>
    ({ st with session := s' }, [Call.iamClear st.session], Except.ok (Data.other Value.none))

/-- The `authenticate` handler: exactly one strand (token) argument, session
moved out, verified by IAM, written back on both paths; success yields
`None`. -/
def authenticate (env : Env) (st : RpcState) (params : List Value) : HRes :=
  match needs_one params with
  | Except.ok (Value.strand token) =>
    let tmp := st.session
    let st' := { st with session := {} }
    let call := env.verifyFn tmp token
    ({ st' with session := call.1 }, [Call.iamVerify tmp token],
      match call.2 with
      | Except.ok _ => Except.ok (Data.other Value.none)
      | Except.error e => failRpc e)
  | _ => (st, [], failRpc RpcError.InvalidParams)

/-- The `info` handler: synthesises `SELECT * FROM $auth` and returns the
first row of the first response. -/
def info (env : Env) (st : RpcState) : HRes :=
  let sql := QueryAst.selectStmt Fields.all [Value.param "auth"]
  let tr : Trace := [Call.process sql st.session Option.none]
  match env.processFn sql st.session Option.none with
  | Except.error e => (st, tr, failRpc e)
  | Except.ok [] => (st, tr, Except.error (Fail.panicked "removal index out of bounds"))
  | Except.ok (r :: _) =>
    match r.result with
    | Except.error e => (st, tr, failRpc e)
    | Except.ok v => (st, tr, Except.ok (Data.other v.first))

/-- The `set` handler: strand key plus optional value; the value is computed
with the key shadowed to `None`, the result stored (or the key removed when
the computed value is `None`), and `Null` returned. -/
def set (env : Env) (st : RpcState) (params : List Value) : HRes :=
  match needs_one_or_two params with
  | Except.ok (Value.strand key, val) =>
    let var := Option.some (insertVar st.vars key Value.none)
    let tr : Trace := [Call.compute val st.session var]
    match env.computeFn val st.session var with
    | Except.error e => (st, tr, failRpc e)
    | Except.ok Value.none =>
      ({ st with vars := removeVar st.vars key }, tr, Except.ok (Data.other Value.null))
    | Except.ok v =>
      ({ st with vars := insertVar st.vars key v }, tr, Except.ok (Data.other Value.null))
  | _ => (st, [], failRpc RpcError.InvalidParams)

/-- The `unset` handler: strand key removed from the variable map. -/
def unset (_env : Env) (st : RpcState) (params : List Value) : HRes :=
  match needs_one params with
  | Except.ok (Value.strand key) =>
    ({ st with vars := removeVar st.vars key }, [], Except.ok (Data.other Value.null))
  | _ => (st, [], failRpc RpcError.InvalidParams)

/-- The `kill` handler: synthesises `KILL $id` and routes it through the
inner query path. -/
def kill (env : Env) (st : RpcState) (params : List Value) : HRes :=
  match needs_one params with
  | Except.error e => (st, [], failRpc e)
  | Except.ok id =>
    let sql := QueryAst.killStmt (Value.param "id")
    let var := insertVar st.vars "id" id
    let out := query_inner env st (Value.query sql) (Option.some var)
    match out.2 with
    | Except.error f => (st, out.1, Except.error f)
    | Except.ok [] => (st, out.1, Except.error (Fail.panicked "removal index out of bounds"))
    | Except.ok (r :: _) => (st, out.1, toData r.result)

/-- The `live` handler: synthesises `LIVE SELECT DIFF FROM $what` or
`LIVE SELECT * FROM $what` and routes it through the inner query path. -/
def live (env : Env) (st : RpcState) (params : List Value) : HRes :=
  match needs_one_or_two params with
  | Except.error e => (st, [], failRpc e)
  | Except.ok (what, diff) =>
    let sql :=
      if diff.is_true then QueryAst.liveStmt Fields.empty [Value.param "what"]
      else QueryAst.liveStmt Fields.all [Value.param "what"]
    let var := insertVar st.vars "what" what.could_be_table
    let out := query_inner env st (Value.query sql) (Option.some var)
    match out.2 with
    | Except.error f => (st, out.1, Except.error f)
    | Except.ok [] => (st, out.1, Except.error (Fail.panicked "removal index out of bounds"))
    | Except.ok (r :: _) => (st, out.1, toData r.result)

/-- The `select` handler: `SELECT * FROM $what`, scalar row when the raw
argument is a single thing. -/
def select (env : Env) (st : RpcState) (params : List Value) : HRes :=
  match needs_one params with
  | Except.error _ => (st, [], failRpc RpcError.InvalidParams)
  | Except.ok what =>
    let one := what.is_thing_single
    let sql := QueryAst.selectStmt Fields.all [Value.param "what"]
    let var := insertVar st.vars "what" what.could_be_table
    processOne env st sql (Option.some var) one

/-- The `insert` handler: `INSERT [INTO $what] $data RETURN AFTER`; the
`INTO` clause is omitted when `what` is `None`/`Null`. -/
def insert (env : Env) (st : RpcState) (params : List Value) : HRes :=
  match needs_two params with
  | Except.error _ => (st, [], failRpc RpcError.InvalidParams)
  | Except.ok (what, data) =>
    match what with
    | Value.none =>
      let sql := QueryAst.insertStmt false Option.none
        (SqlData.singleExpression (Value.param "data")) (Option.some Output.after)
      processOne env st sql (Option.some (insertVar st.vars "data" data)) false
    | Value.null =>
      let sql := QueryAst.insertStmt false Option.none
        (SqlData.singleExpression (Value.param "data")) (Option.some Output.after)
      processOne env st sql (Option.some (insertVar st.vars "data" data)) false
    | what =>
      let sql := QueryAst.insertStmt false (Option.some (Value.param "what"))
        (SqlData.singleExpression (Value.param "data")) (Option.some Output.after)
      let var := insertVar (insertVar st.vars "what" what.could_be_table) "data" data
      processOne env st sql (Option.some var) false

/-- The `insert_relation` handler: `INSERT RELATION [INTO $what] $data
RETURN AFTER`; `what` must be `None`/`Null` or a table/strand. -/
def insert_relation (env : Env) (st : RpcState) (params : List Value) : HRes :=
  match needs_two params with
  | Except.error _ => (st, [], failRpc RpcError.InvalidParams)
  | Except.ok (what, data) =>
    match what with
    | Value.none =>
      let sql := QueryAst.insertStmt true Option.none
        (SqlData.singleExpression (Value.param "data")) (Option.some Output.after)
      processOne env st sql (Option.some (insertVar st.vars "data" data)) false
    | Value.null =>
      let sql := QueryAst.insertStmt true Option.none
        (SqlData.singleExpression (Value.param "data")) (Option.some Output.after)
      processOne env st sql (Option.some (insertVar st.vars "data" data)) false
    | Value.table t =>
      let sql := QueryAst.insertStmt true (Option.some (Value.param "what"))
        (SqlData.singleExpression (Value.param "data")) (Option.some Output.after)
      let var := insertVar (insertVar st.vars "data" data) "what"
        (Value.table t).could_be_table
      processOne env st sql (Option.some var) false
    | Value.strand s =>
      let sql := QueryAst.insertStmt true (Option.some (Value.param "what"))
        (SqlData.singleExpression (Value.param "data")) (Option.some Output.after)
      let var := insertVar (insertVar st.vars "data" data) "what"
        (Value.strand s).could_be_table
      processOne env st sql (Option.some var) false
    | _ => (st, [], failRpc RpcError.InvalidParams)

/-- The `create` handler: `CREATE $what [data clause] RETURN AFTER`; scalar
row when the coerced argument is a single thing or a table. -/
def create (env : Env) (st : RpcState) (params : List Value) : HRes :=
  match needs_one_or_two params with
  | Except.error _ => (st, [], failRpc RpcError.InvalidParams)
  | Except.ok (what, data) =>
    let what := what.could_be_table
    let one := what.is_thing_single || what.is_table
    let sql :=
      if data.is_none_or_null then
        QueryAst.createStmt [Value.param "what"] Option.none (Option.some Output.after)
      else
        QueryAst.createStmt [Value.param "what"]
          (Option.some (SqlData.mergeExpression (Value.param "data")))
          (Option.some Output.after)
    let var := insertVar (insertVar st.vars "what" what) "data" data
    processOne env st sql (Option.some var) one

/-- The `upsert` handler: `UPSERT $what` with options; scalar row when the
raw argument is a single thing. -/
def upsert (env : Env) (st : RpcState) (params : List Value) : HRes :=
  match needs_one_two_or_three params with
  | Except.error _ => (st, [], failRpc RpcError.InvalidParams)
  | Except.ok (what, data, optsValue) =>
    let opts : StatementOptions := {}
    let opts := if data.is_none_or_null then opts else opts.with_data_content data
    let optsRes :=
      if optsValue.is_none_or_null then Except.ok opts else opts.process_options optsValue
    match optsRes with
    | Except.error e => (st, [], failRpc e)
    | Except.ok opts =>
      let one := what.is_thing_single
      let vars := Option.some (opts.merge_vars st.vars)
      let sql := QueryAst.upsertStmt [what] opts.data_expr (Option.some opts.output) opts.cond
      processOne env st sql vars one

/-- The `update` handler: `UPDATE $what` with options; scalar row when the
raw argument is a single thing. -/
def update (env : Env) (st : RpcState) (params : List Value) : HRes :=
  match needs_one_two_or_three params with
  | Except.error _ => (st, [], failRpc RpcError.InvalidParams)
  | Except.ok (what, data, optsValue) =>
    let opts : StatementOptions := {}
    let opts := if data.is_none_or_null then opts else opts.with_data_content data
    let optsRes :=
      if optsValue.is_none_or_null then Except.ok opts else opts.process_options optsValue
    match optsRes with
    | Except.error e => (st, [], failRpc e)
    | Except.ok opts =>
      let one := what.is_thing_single
      let vars := Option.some (opts.merge_vars st.vars)
      let sql := QueryAst.updateStmt [what] opts.data_expr (Option.some opts.output) opts.cond
      processOne env st sql vars one

/-- The `merge` handler: `UPDATE $what [MERGE $data] RETURN AFTER`; scalar
row when the raw argument is a single thing. -/
def merge (env : Env) (st : RpcState) (params : List Value) : HRes :=
  match needs_one_or_two params with
  | Except.error _ => (st, [], failRpc RpcError.InvalidParams)
  | Except.ok (what, data) =>
    let one := what.is_thing_single
    let sql :=
      if data.is_none_or_null then
        QueryAst.updateStmt [Value.param "what"] Option.none (Option.some Output.after)
          Option.none
      else
        QueryAst.updateStmt [Value.param "what"]
          (Option.some (SqlData.mergeExpression (Value.param "data")))
          (Option.some Output.after) Option.none
    let var := insertVar (insertVar st.vars "what" what.could_be_table) "data" data
    processOne env st sql (Option.some var) one

/-- The `patch` handler: `UPDATE $what PATCH $data RETURN DIFF|AFTER`;
scalar row when the raw argument is a single thing. -/
def patch (env : Env) (st : RpcState) (params : List Value) : HRes :=
  match needs_one_two_or_three params with
  | Except.error _ => (st, [], failRpc RpcError.InvalidParams)
  | Except.ok (what, data, diff) =>
    let one := what.is_thing_single
    let sql :=
      if diff.is_true then
        QueryAst.updateStmt [Value.param "what"]
          (Option.some (SqlData.patchExpression (Value.param "data")))
          (Option.some Output.diff) Option.none
      else
        QueryAst.updateStmt [Value.param "what"]
          (Option.some (SqlData.patchExpression (Value.param "data")))
          (Option.some Output.after) Option.none
    let var := insertVar (insertVar st.vars "what" what.could_be_table) "data" data
    processOne env st sql (Option.some var) one

/-- The `relate` handler: `RELATE $from->$kind->$to [CONTENT $data] RETURN
AFTER`; scalar row when both endpoints are single. -/
def relate (env : Env) (st : RpcState) (params : List Value) : HRes :=
  match needs_three_or_four params with
  | Except.error _ => (st, [], failRpc RpcError.InvalidParams)
  | Except.ok (frm, kind, toV, data) =>
    let one := frm.is_single && toV.is_single
    let sql :=
      if data.is_none_or_null then
        QueryAst.relateStmt (Value.param "from") (Value.param "kind") (Value.param "to")
          Option.none (Option.some Output.after)
      else
        QueryAst.relateStmt (Value.param "from") (Value.param "kind") (Value.param "to")
          (Option.some (SqlData.contentExpression (Value.param "data")))
          (Option.some Output.after)
    let var :=
      insertVar (insertVar (insertVar (insertVar st.vars "from" frm) "kind"
        kind.could_be_table) "to" toV) "data" data
    processOne env st sql (Option.some var) one

/-- The `delete` handler: `DELETE $what RETURN BEFORE`; scalar row when the
raw argument is a single thing. -/
def delete (env : Env) (st : RpcState) (params : List Value) : HRes :=
  match needs_one params with
  | Except.error _ => (st, [], failRpc RpcError.InvalidParams)
  | Except.ok what =>
    let one := what.is_thing_single
    let sql := QueryAst.deleteStmt [Value.param "what"] (Option.some Output.before)
    let var := insertVar st.vars "what" what.could_be_table
    processOne env st sql (Option.some var) one

/-- The `version` handler: zero arguments return the version datum. -/
def version (env : Env) (st : RpcState) (params : List Value) : HRes :=
  match params with
  | [] => (st, [], Except.ok env.versionData)
  | _ => (st, [], failRpc RpcError.InvalidParams)

/-- The `query` handler: pre-parsed tree or source string, optional object
of call variables merged over the session variable map, routed through the
inner query path. -/
def query (env : Env) (st : RpcState) (params : List Value) : HRes :=
  match needs_one_or_two params with
  | Except.error _ => (st, [], failRpc RpcError.InvalidParams)
  | Except.ok (q, o) =>
    if !(q.is_query || q.is_strand) then (st, [], failRpc RpcError.InvalidParams)
    else
      let oRes : Except RpcError (Option (List (String × Value))) :=
        match o with
        | Value.object v => Except.ok (Option.some v)
        | Value.none => Except.ok Option.none
        | Value.null => Except.ok Option.none
        | _ => Except.error RpcError.InvalidParams
      match oRes with
      | Except.error e => (st, [], failRpc e)
      | Except.ok oo =>
        let vars :=
          match oo with
          | Option.some v => Option.some (overrideVars st.vars v)
          | Option.none => Option.some st.vars
        let out := query_inner env st q vars
        (st, out.1, Except.map Data.queryResults out.2)

/-- The `run` handler: strand name with prefix dispatch via the byte slice
`name[0..4]` (which panics for names shorter than four bytes; byte indexing
is modelled on characters, the inputs of interest being ASCII), optional
strand version, optional array of arguments. -/
def run (env : Env) (st : RpcState) (params : List Value) : HRes :=
  match needs_one_two_or_three params with
  | Except.error _ => (st, [], failRpc RpcError.InvalidParams)
  | Except.ok (nameValue, versionValue, argsValue) =>
    match nameValue with
    | Value.strand name =>
      let versionRes : Except RpcError (Option String) :=
        match versionValue with
        | Value.strand v => Except.ok (Option.some v)
        | Value.none => Except.ok Option.none
        | Value.null => Except.ok Option.none
        | _ => Except.error RpcError.InvalidParams
      let argsRes : Except RpcError (List Value) :=
        match argsValue with
        | Value.array a => Except.ok a
        | Value.none => Except.ok []
        | Value.null => Except.ok []
        | _ => Except.error RpcError.InvalidParams
      match versionRes, argsRes with
      | Except.error e, _ => (st, [], failRpc e)
      | Except.ok _, Except.error e => (st, [], failRpc e)
      | Except.ok version, Except.ok args =>
        if name.length < 4 then
          (st, [], Except.error (Fail.panicked "byte index 4 is out of bounds"))
        else
          let funcRes : Except RpcError QueryAst :=
            if name.take 4 = "fn::" then
              Except.ok (QueryAst.fnCustom (name.drop 4) args)
            else if name.take 4 = "ml::" then
              match version with
              | Option.some v => Except.ok (QueryAst.mlModel (name.drop 4) v args)
              | Option.none => Except.error RpcError.InvalidParams
            else Except.ok (QueryAst.fnNormal name args)
          match funcRes with
          | Except.error e => (st, [], failRpc e)
          | Except.ok func => processOne env st func (Option.some st.vars) false
    | _ => (st, [], failRpc RpcError.InvalidParams)

/-- The `graphql` handler in the default build configuration
(`surrealdb_unstable` off): `MethodNotFound`. -/
def graphql (_env : Env) (st : RpcState) (_params : List Value) : HRes :=
  (st, [], failRpc RpcError.MethodNotFound)

/-- The mutating dispatcher `execute`: capability gate first, then the
per-method handler. -/
def execute (env : Env) (st : RpcState) (m : Method) (params : List Value) : HRes :=
  if !env.allows m then (st, [], failRpc RpcError.MethodNotAllowed)
  else
    match m with
    | Method.ping => (st, [], Except.ok (Data.other Value.none))
    | Method.info => info env st
    | Method.use_ => yuse env st params
    | Method.signup => signup env st params
    | Method.signin => signin env st params
    | Method.invalidate => invalidate env st
    | Method.authenticate => authenticate env st params
    | Method.kill => kill env st params
    | Method.live => live env st params
    | Method.set => set env st params
    | Method.unset => unset env st params
    | Method.select => select env st params
    | Method.insert => insert env st params
    | Method.create => create env st params
    | Method.upsert => upsert env st params
    | Method.update => update env st params
    | Method.merge => merge env st params
    | Method.patch => patch env st params
    | Method.delete => delete env st params
    | Method.version => version env st params
    | Method.query => query env st params
    | Method.relate => relate env st params
    | Method.run => run env st params
    | Method.graphql => graphql env st params
    | Method.insertRelation => insert_relation env st params
    | Method.unknown => (st, [], failRpc RpcError.MethodNotFound)

/-- The immutable dispatcher `execute_immut`: capability gate first, then
only the non-mutating handlers; everything else is `MethodNotFound`. -/
def execute_immut (env : Env) (st : RpcState) (m : Method) (params : List Value) : HRes :=
  if !env.allows m then (st, [], failRpc RpcError.MethodNotAllowed)
  else
    match m with
    | Method.ping => (st, [], Except.ok (Data.other Value.none))
    | Method.info => info env st
    | Method.select => select env st params
    | Method.insert => insert env st params
    | Method.create => create env st params
    | Method.upsert => upsert env st params
    | Method.update => update env st params
    | Method.merge => merge env st params
    | Method.patch => patch env st params
    | Method.delete => delete env st params
    | Method.version => version env st params
    | Method.query => query env st params
    | Method.relate => relate env st params
    | Method.run => run env st params
    | Method.graphql => graphql env st params
    | Method.insertRelation => insert_relation env st params
    | Method.unknown => (st, [], failRpc RpcError.MethodNotFound)
    | _ => (st, [], failRpc RpcError.MethodNotFound)

end RpcContext

/-- Specification-side restatement of the `Assignment::try_from` contract
(used to compare the source translation against the claim): operator decode
from the middle component, idiom from the middle component, right-hand side
from the last component. -/
def assignmentSpec {I : Type} (toIdiom : Value → I) (o r : Value) :
    Except RsError (Assignment I) :=
  match o with
  | Value.strand s =>
    match s with
    | "=" => Except.ok ⟨toIdiom o, Operator.equal, r⟩
    | "+=" => Except.ok ⟨toIdiom o, Operator.inc, r⟩
    | "-=" => Except.ok ⟨toIdiom o, Operator.dec, r⟩
    | "+?=" => Except.ok ⟨toIdiom o, Operator.ext, r⟩
    | _ => Except.error (RsError.invalidOperator s)
  | _ => Except.error (RsError.otherTryFrom o)

/-- Specification-side per-argument semantics of `Use`: `None` keeps the
current selection, `Null` unsets it, a strand assigns it, anything else is
invalid (`none`). -/
def useArgSpec : Value → Option String → Option (Option String)
  | Value.none, cur => Option.some cur
  | Value.null, _ => Option.some Option.none
  | Value.strand s, _ => Option.some (Option.some s)
  | _, _ => Option.none

/-- Baseline test environment: every method allowed, live queries
supported, an empty datastore, an identity `compute`, IAM routines that
succeed without touching the session. -/
def env0 : Env where
  allows := fun _ => true
  lq := true
  processFn := fun _ _ _ => Except.ok []
  executeFn := fun _ _ _ => Except.ok []
  computeFn := fun v _ _ => Except.ok v
  signupFn := fun s _ => (s, Except.ok (Value.strand "token"))
  signinFn := fun s _ => (s, Except.ok (Value.strand "token"))
  verifyFn := fun s _ => (s, Except.ok ())
  clearFn := fun _ => Except.ok {}
  versionData := Data.other (Value.strand "surrealdb")

/-- Baseline starting state: default session, empty variable map. -/
def st0 : RpcState where
  session := {}
  vars := []

/-- Fixture response: a single `Ok` row carrying the array `[30]`. -/
def row30 : Response where
  result := Except.ok (Value.array [Value.int 30])
  queryType := QueryType.other

/-- Fixture environment whose datastore answers every statement with the
single response `row30`. -/
def envRow : Env :=
  { env0 with processFn := fun _ _ _ => Except.ok [row30] }


/-- C9: `Assignment::try_from((l, o, r))` succeeds exactly when the second
component `o` is a strand equal to "=", "+=", "-=" or "+?=" (mapped to
Equal, Inc, Dec, Ext); in the successful result the left-hand idiom is
computed from `o` — not from `l`, which is ignored entirely — and the
right-hand side is `r`. -/
theorem assignment_tryFrom_decodes_middle {I : Type} (toIdiom : Value → I)
    (l o r : Value) :
    Assignment.tryFrom toIdiom (l, o, r) = assignmentSpec toIdiom o r
    ∧ (∀ l' : Value, Assignment.tryFrom toIdiom (l', o, r)
        = Assignment.tryFrom toIdiom (l, o, r)) := by
  constructor
  · cases o <;> rfl
  · intro l'
    rfl

/-- C5: when the capability predicate denies a method, both `execute` and
`execute_immut` return `MethodNotAllowed` before any handler runs: the
state (session and variable map) is returned unchanged and the trace of
datastore, IAM and callback operations is empty. -/
theorem capability_denial_no_side_effects (env : Env) (st : RpcState) (m : Method)
    (params : List Value) (h : env.allows m = false) :
    RpcContext.execute env st m params
      = (st, [], failRpc RpcError.MethodNotAllowed)
    ∧ RpcContext.execute_immut env st m params
      = (st, [], failRpc RpcError.MethodNotAllowed) := by
  constructor <;> simp [RpcContext.execute, RpcContext.execute_immut, h]

/-- Witness for C5: a concrete environment denying every method makes a
`ping` call fail with `MethodNotAllowed`, leaving the baseline state
untouched. -/
theorem capability_denial_no_side_effects_witness :
    ({ env0 with allows := fun _ => false } : Env).allows Method.ping = false
    ∧ RpcContext.execute { env0 with allows := fun _ => false } st0 Method.ping []
        = (st0, [], failRpc RpcError.MethodNotAllowed)
    ∧ RpcContext.execute_immut { env0 with allows := fun _ => false } st0 Method.ping []
        = (st0, [], failRpc RpcError.MethodNotAllowed) :=
  ⟨rfl,
   (capability_denial_no_side_effects { env0 with allows := fun _ => false } st0
     Method.ping [] rfl).1,
   (capability_denial_no_side_effects { env0 with allows := fun _ => false } st0
     Method.ping [] rfl).2⟩

/-- C1: each of `signup`, `signin` and `authenticate` moves the session
out, hands it to the IAM routine, and writes the IAM-returned session back
on both the success and the failure path; when IAM fails without touching
the session (full failure) the stored session equals its pre-call value,
and on success the session is the IAM-updated one, with the issued token
returned for signup/signin and `None` for authenticate. -/
theorem auth_handlers_session_roundtrip (env : Env) (st : RpcState)
    (creds : List (String × Value)) (tok : String) :
    (RpcContext.signup env st [Value.object creds]
       = ({ st with session := (env.signupFn st.session creds).1 },
          [Call.iamSignup st.session creds], toData (env.signupFn st.session creds).2))
    ∧ (∀ e, env.signupFn st.session creds = (st.session, Except.error e) →
        (RpcContext.signup env st [Value.object creds]).1.session = st.session)
    ∧ (RpcContext.signin env st [Value.object creds]
       = ({ st with session := (env.signinFn st.session creds).1 },
          [Call.iamSignin st.session creds], toData (env.signinFn st.session creds).2))
    ∧ (∀ e, env.signinFn st.session creds = (st.session, Except.error e) →
        (RpcContext.signin env st [Value.object creds]).1.session = st.session)
    ∧ (RpcContext.authenticate env st [Value.strand tok]
       = ({ st with session := (env.verifyFn st.session tok).1 },
          [Call.iamVerify st.session tok],
          match (env.verifyFn st.session tok).2 with
          | Except.ok _ => Except.ok (Data.other Value.none)
          | Except.error e => failRpc e))
    ∧ (∀ e, env.verifyFn st.session tok = (st.session, Except.error e) →
        (RpcContext.authenticate env st [Value.strand tok]).1.session = st.session) := by
  refine ⟨rfl, ?_, rfl, ?_, rfl, ?_⟩ <;>
    · intro e he
      simp [RpcContext.signup, RpcContext.signin, RpcContext.authenticate,
        needs_one, he]

/-- Witness for C1: with an IAM signup that fails without touching the
session, the session is restored to its pre-call value; with an IAM verify
that succeeds without touching the session, `authenticate` returns `None`
and keeps the session. -/
theorem auth_handlers_session_roundtrip_witness :
    (RpcContext.signup
        { env0 with signupFn := fun s _ => (s, Except.error RpcError.InvalidAuth) }
        st0 [Value.object []]).1.session = st0.session
    ∧ RpcContext.authenticate env0 st0 [Value.strand "tok"]
        = (st0, [Call.iamVerify st0.session "tok"], Except.ok (Data.other Value.none)) :=
  ⟨(auth_handlers_session_roundtrip
      { env0 with signupFn := fun s _ => (s, Except.error RpcError.InvalidAuth) }
      st0 [] "tok").2.1 RpcError.InvalidAuth rfl,
   (auth_handlers_session_roundtrip env0 st0 [] "tok").2.2.2.2.1⟩

/-- C4: for every `Use(ns, db)` call, `None` leaves the corresponding field
unchanged, `Null` unsets it, a strand assigns it, and any other value
yields `InvalidParams`; on success the call returns `None` and afterwards
an empty namespace implies an empty database (the database is cleared when
the namespace is unset). -/
theorem yuse_argument_semantics (env : Env) (st : RpcState) (ns db : Value) :
    (∀ n d, useArgSpec ns st.session.ns = Option.some n →
       useArgSpec db st.session.db = Option.some d →
       RpcContext.yuse env st [ns, db]
         = ({ st with session := { st.session with
                ns := n,
                db := if n.isNone && d.isSome then Option.none else d } }, [],
            Except.ok (Data.other Value.none)))
    ∧ (useArgSpec ns st.session.ns = Option.none →
        RpcContext.yuse env st [ns, db] = (st, [], failRpc RpcError.InvalidParams))
    ∧ (useArgSpec db st.session.db = Option.none →
        (RpcContext.yuse env st [ns, db]).2.2 = failRpc RpcError.InvalidParams)
    ∧ (∀ st' r, RpcContext.yuse env st [ns, db] = (st', [], Except.ok r) →
        st'.session.ns = Option.none → st'.session.db = Option.none) := by
  have h1 : ∀ n d, useArgSpec ns st.session.ns = Option.some n →
      useArgSpec db st.session.db = Option.some d →
      RpcContext.yuse env st [ns, db]
        = ({ st with session := { st.session with
               ns := n,
               db := if n.isNone && d.isSome then Option.none else d } }, [],
           Except.ok (Data.other Value.none)) := by
    intro n d hn hd
    cases ns <;> cases db <;>
      first
        | (simp only [useArgSpec, Option.some.injEq] at hn hd
           subst hn; subst hd
           simp [RpcContext.yuse, needs_two]
           try (split <;> simp_all))
        | simp_all [useArgSpec]
  have h2 : useArgSpec ns st.session.ns = Option.none →
      RpcContext.yuse env st [ns, db] = (st, [], failRpc RpcError.InvalidParams) := by
    intro hn
    cases ns <;> simp_all [useArgSpec, RpcContext.yuse, needs_two]
  have h3 : useArgSpec db st.session.db = Option.none →
      (RpcContext.yuse env st [ns, db]).2.2 = failRpc RpcError.InvalidParams := by
    intro hd
    cases db <;> cases ns <;> simp_all [useArgSpec, RpcContext.yuse, needs_two]
  refine ⟨h1, h2, h3, ?_⟩
  intro st' r h hns
  cases hu : useArgSpec ns st.session.ns with
  | none =>
    have hcontra := (h2 hu).symm.trans h
    simp [failRpc] at hcontra
  | some n =>
    cases hd : useArgSpec db st.session.db with
    | none =>
      have hcontra := h3 hd
      rw [h] at hcontra
      simp [failRpc] at hcontra
    | some d =>
      have heq := h.symm.trans (h1 n d hu hd)
      rw [Prod.ext_iff] at heq
      obtain ⟨hfst, -⟩ := heq
      subst hfst
      simp only at hns ⊢
      subst hns
      cases d <;> simp

/-- Witness for C4: `Use(["acme", null])` on a session with namespace
"old" and database "foo" selects namespace "acme", unsets the database and
returns `None`. -/
theorem yuse_argument_semantics_witness :
    RpcContext.yuse env0
        { session := { ns := Option.some "old", db := Option.some "foo" }, vars := [] }
        [Value.strand "acme", Value.null]
      = ({ session := { ns := Option.some "acme", db := Option.none }, vars := [] }, [],
         Except.ok (Data.other Value.none)) :=
  (yuse_argument_semantics env0
      { session := { ns := Option.some "old", db := Option.some "foo" }, vars := [] }
      (Value.strand "acme") Value.null).1 (Option.some "acme") Option.none rfl rfl

/-- C10: `Use` is not atomic on argument errors — when the `db` argument is
neither `None`, `Null` nor a strand, the call fails with `InvalidParams`
but any namespace change made from the `ns` argument persists in the
session, and the invariant-restoration step (clearing a residual database)
is skipped on that error path. -/
theorem yuse_non_atomic_on_db_error (env : Env) (st : RpcState) (s : String)
    (db : Value) (hdb : useArgSpec db st.session.db = Option.none) :
    RpcContext.yuse env st [Value.strand s, db]
      = ({ st with session := { st.session with ns := Option.some s } }, [],
         failRpc RpcError.InvalidParams)
    ∧ RpcContext.yuse env st [Value.null, db]
      = ({ st with session := { st.session with ns := Option.none } }, [],
         failRpc RpcError.InvalidParams) := by
  cases db <;> simp_all [useArgSpec, RpcContext.yuse, needs_two]

/-- Witness for C10: `Use([null, true])` on a session holding a database
fails with `InvalidParams`, yet leaves the namespace unset while the
database survives — the empty-namespace invariant is not restored on the
error path. -/
theorem yuse_non_atomic_on_db_error_witness :
    RpcContext.yuse env0
        { session := { ns := Option.some "old", db := Option.some "foo" }, vars := [] }
        [Value.null, Value.bool true]
      = ({ session := { ns := Option.none, db := Option.some "foo" }, vars := [] }, [],
         failRpc RpcError.InvalidParams) :=
  (yuse_non_atomic_on_db_error env0
      { session := { ns := Option.some "old", db := Option.some "foo" }, vars := [] }
      "acme" (Value.bool true) rfl).2

/-- C6: when `LQ_SUPPORT` is off and the session's realtime flag is set,
every call routed through `query_inner` — `query` with a pre-parsed tree or
a source string, `live`, `kill`, and `query_inner` itself — fails with
`BadLQConfig` and performs no datastore `process` or `execute` call (the
trace is empty). -/
theorem query_inner_lq_guard (env : Env) (st : RpcState) (h1 : env.lq = false)
    (h2 : st.session.rt = true) :
    (∀ q vars, RpcContext.query_inner env st q vars
        = ([], Except.error (Fail.rpc RpcError.BadLQConfig)))
    ∧ (∀ id, RpcContext.kill env st [id]
        = (st, [], Except.error (Fail.rpc RpcError.BadLQConfig)))
    ∧ (∀ what diff, RpcContext.live env st [what, diff]
        = (st, [], Except.error (Fail.rpc RpcError.BadLQConfig)))
    ∧ (∀ s, RpcContext.query env st [Value.strand s]
        = (st, [], Except.error (Fail.rpc RpcError.BadLQConfig)))
    ∧ (∀ qa, RpcContext.query env st [Value.query qa]
        = (st, [], Except.error (Fail.rpc RpcError.BadLQConfig))) := by
  have hq : ∀ q vars, RpcContext.query_inner env st q vars
      = ([], Except.error (Fail.rpc RpcError.BadLQConfig)) := by
    intro q vars
    simp [RpcContext.query_inner, h1, h2]
  refine ⟨hq, ?_, ?_, ?_, ?_⟩
  · intro id
    simp [RpcContext.kill, needs_one, hq]
  · intro what diff
    simp [RpcContext.live, needs_one_or_two, hq]
  · intro s
    simp [RpcContext.query, needs_one_or_two, Value.is_strand, Value.is_query, hq,
      Except.map]
  · intro qa
    simp [RpcContext.query, needs_one_or_two, Value.is_strand, Value.is_query, hq,
      Except.map]

/-- Witness for C6: with live-query support off and a realtime session, a
concrete `kill` call fails with `BadLQConfig` and an empty trace. -/
theorem query_inner_lq_guard_witness :
    ({ env0 with lq := false } : Env).lq = false
    ∧ ({ session := { rt := true }, vars := [] } : RpcState).session.rt = true
    ∧ RpcContext.kill { env0 with lq := false }
        { session := { rt := true }, vars := [] } [Value.uuid 7]
      = ({ session := { rt := true }, vars := [] }, [],
         Except.error (Fail.rpc RpcError.BadLQConfig)) :=
  ⟨rfl, rfl,
   (query_inner_lq_guard { env0 with lq := false }
      { session := { rt := true }, vars := [] } rfl rfl).2.1 (Value.uuid 7)⟩

/-- C8: for each CRUD handler, when the datastore returns a first response
with an `Ok` value, the handler returns the scalar first row exactly when
the `what` argument denotes a single record — a single thing for `select`,
`upsert`, `update`, `merge`, `patch` and `delete`; a single thing or a
table reference (after could-be-table coercion) for `create`; both
endpoints single for `relate` — and the full result value otherwise. -/
theorem crud_single_record_scalar (env : Env) (st : RpcState) (v : Value)
    (qt : QueryType)
    (henv : ∀ q s vars, env.processFn q s vars
        = Except.ok [{ result := Except.ok v, queryType := qt }]) :
    (∀ what, (RpcContext.select env st [what]).2.2
        = Except.ok (Data.other (if what.is_thing_single then v.first else v)))
    ∧ (∀ what data, (RpcContext.create env st [what, data]).2.2
        = Except.ok (Data.other
            (if what.could_be_table.is_thing_single || what.could_be_table.is_table
             then v.first else v)))
    ∧ (∀ what data, (RpcContext.upsert env st [what, data, Value.none]).2.2
        = Except.ok (Data.other (if what.is_thing_single then v.first else v)))
    ∧ (∀ what data, (RpcContext.update env st [what, data, Value.none]).2.2
        = Except.ok (Data.other (if what.is_thing_single then v.first else v)))
    ∧ (∀ what data, (RpcContext.merge env st [what, data]).2.2
        = Except.ok (Data.other (if what.is_thing_single then v.first else v)))
    ∧ (∀ what data diff, (RpcContext.patch env st [what, data, diff]).2.2
        = Except.ok (Data.other (if what.is_thing_single then v.first else v)))
    ∧ (∀ what, (RpcContext.delete env st [what]).2.2
        = Except.ok (Data.other (if what.is_thing_single then v.first else v)))
    ∧ (∀ frm kind toV data, (RpcContext.relate env st [frm, kind, toV, data]).2.2
        = Except.ok (Data.other
            (if frm.is_single && toV.is_single then v.first else v))) := by
  refine ⟨?_, ?_, ?_, ?_, ?_, ?_, ?_, ?_⟩
  · intro what
    simp [RpcContext.select, needs_one, RpcContext.processOne, henv]
  · intro what data
    simp only [RpcContext.create, needs_one_or_two]
    split <;> simp [RpcContext.processOne, henv]
  · intro what data
    simp only [RpcContext.upsert, needs_one_two_or_three, Value.is_none_or_null]
    split <;> simp_all [RpcContext.processOne, henv]
  · intro what data
    simp only [RpcContext.update, needs_one_two_or_three, Value.is_none_or_null]
    split <;> simp_all [RpcContext.processOne, henv]
  · intro what data
    simp only [RpcContext.merge, needs_one_or_two]
    split <;> simp [RpcContext.processOne, henv]
  · intro what data diff
    simp only [RpcContext.patch, needs_one_two_or_three]
    split <;> simp [RpcContext.processOne, henv]
  · intro what
    simp [RpcContext.delete, needs_one, RpcContext.processOne, henv]
  · intro frm kind toV data
    simp only [RpcContext.relate, needs_three_or_four]
    split <;> simp [RpcContext.processOne, henv]

/-- Witness for C8: with a datastore that answers every statement with the
single row `row30`, selecting the single record `user:1` yields the scalar
first row while selecting the table `user` yields the full value. -/
theorem crud_single_record_scalar_witness :
    (RpcContext.select envRow st0 [Value.thing "user" (RecordId.num 1)]).2.2
      = Except.ok (Data.other (Value.int 30))
    ∧ (RpcContext.select envRow st0 [Value.strand "user"]).2.2
      = Except.ok (Data.other (Value.array [Value.int 30])) :=
  ⟨(crud_single_record_scalar envRow st0 (Value.array [Value.int 30]) QueryType.other
      (fun _ _ _ => rfl)).1 (Value.thing "user" (RecordId.num 1)),
   (crud_single_record_scalar envRow st0 (Value.array [Value.int 30]) QueryType.other
      (fun _ _ _ => rfl)).1 (Value.strand "user")⟩

/-- Counterexample to C7: with the identity compute oracle, a `Set` call
with the reserved key "auth" succeeds and leaves a user-written binding for
"auth" in the variable map — the write is neither rejected nor ignored. -/
theorem set_reserved_name_not_protected :
    (RpcContext.set env0 st0 [Value.strand "auth", Value.bool true]).2.2
      = Except.ok (Data.other Value.null)
    ∧ lookupVar (RpcContext.set env0 st0 [Value.strand "auth", Value.bool true]).1.vars
        "auth"
      = Option.some (Value.bool true) :=
  ⟨rfl, rfl⟩

/-- C7 (amended): the `set` handler applies no reserved-name protection —
for the keys "auth" and "session" it behaves exactly as for any other key,
storing the computed value in the user variable map (or removing the key
when the value computes to `None`) and returning `Null`. -/
theorem set_reserved_names_stored_like_any_key (env : Env) (st : RpcState)
    (key : String) (val w : Value)
    (_hkey : key = "auth" ∨ key = "session")
    (hc : env.computeFn val st.session (Option.some (insertVar st.vars key Value.none))
        = Except.ok w) :
    (w = Value.none → RpcContext.set env st [Value.strand key, val]
        = ({ st with vars := removeVar st.vars key },
           [Call.compute val st.session (Option.some (insertVar st.vars key Value.none))],
           Except.ok (Data.other Value.null)))
    ∧ (w ≠ Value.none → RpcContext.set env st [Value.strand key, val]
        = ({ st with vars := insertVar st.vars key w },
           [Call.compute val st.session (Option.some (insertVar st.vars key Value.none))],
           Except.ok (Data.other Value.null))) := by
  constructor
  · intro hw
    subst hw
    simp [RpcContext.set, needs_one_or_two, hc]
  · intro hw
    cases w <;> simp_all [RpcContext.set, needs_one_or_two, hc]

/-- Witness for the amended C7: `Set("session", 5)` under the identity
compute oracle stores the binding and returns `Null`. -/
theorem set_reserved_names_stored_like_any_key_witness :
    RpcContext.set env0 st0 [Value.strand "session", Value.int 5]
      = ({ st0 with vars := [("session", Value.int 5)] },
         [Call.compute (Value.int 5) st0.session (Option.some [("session", Value.none)])],
         Except.ok (Data.other Value.null)) :=
  (set_reserved_names_stored_like_any_key env0 st0 "session" (Value.int 5) (Value.int 5)
      (Or.inr rfl) rfl).2 (fun h => nomatch h)

/-- C2 divergence: the statement synthesised by `create` for a non-null
data argument attaches a `MergeExpression` data clause — not the
`ContentExpression` announced by the adjacent comment and the
specification's method table — as shown by the trace of the datastore call
for `Create(["person", (age: 30)])`. -/
theorem create_synthesises_merge_not_content :
    (RpcContext.create env0 st0
        [Value.strand "person", Value.object [("age", Value.int 30)]]).2.1
      = [Call.process
           (QueryAst.createStmt [Value.param "what"]
             (Option.some (SqlData.mergeExpression (Value.param "data")))
             (Option.some Output.after))
           st0.session
           (Option.some [("what", Value.table "person"),
                         ("data", Value.object [("age", Value.int 30)])])] :=
  rfl

/-- C3 divergence: `run` evaluates the byte slice `name[0..4]`, so the
three-character built-in name "abc" makes the handler panic instead of
building a built-in function call; names of four or more characters
dispatch on the prefix as specified ("count" runs a built-in, "ml::vision"
without a version is `InvalidParams`). -/
theorem run_short_name_panics :
    RpcContext.run env0 st0 [Value.strand "abc"]
      = (st0, [], Except.error (Fail.panicked "byte index 4 is out of bounds"))
    ∧ (RpcContext.run envRow st0 [Value.strand "count"]).2.2
      = Except.ok (Data.other (Value.array [Value.int 30]))
    ∧ RpcContext.run env0 st0 [Value.strand "ml::vision"]
      = (st0, [], failRpc RpcError.InvalidParams) :=
  ⟨rfl, rfl, rfl⟩
